import Mathlib

/-!
Shallow embedding of the assume-role CLI (src/main.rs): profile resolution,
MFA prompting, AWS CLI argument construction, JSON response parsing and
credential rendering, together with proofs about the claims of the spec.
-/

set_option autoImplicit false

/-- Properties of one ini section (ini::ini::Properties): a key/value mapping,
modelled as an association list of strings. -/
abbrev Properties := List (String × String)

/-- Models Properties::remove: returns the value stored at the key (if any)
together with the mapping with that key removed. -/
def Properties.remove (p : Properties) (key : String) : Option String × Properties :=
  (p.lookup key, p.filter (fun e => e.1 != key))

/-- Loaded ini configuration (the result of Ini::load_from_file): section name
to section properties. -/
abbrev Ini := List (String × Properties)

/-- Models Ini::delete applied to a section name: the deleted section's
properties, or none when the section is absent. -/
def Ini.delete (ini : Ini) (sec : String) : Option Properties :=
  ini.lookup sec

/-- Interactive console state: the lines still available on standard input,
and how many interactive prompts have been written so far. -/
structure Console where
  stdin : List String
  prompts : Nat
deriving DecidableEq

/-- Models writing the MFA prompt to stderr (eprint): bumps the prompt count. -/
def Console.prompt (c : Console) : Console :=
  { c with prompts := c.prompts + 1 }

/-- Models io::stdin().read_line: the next available line (as read, trailing
newline included), or the empty string at end of input. -/
def Console.readLine (c : Console) : String × Console :=
  match c.stdin with
  | line :: rest => (line, { c with stdin := rest })
  | [] => ("", c)

/-- Parsed command line (struct App): positional profile, --source-profile,
--role-arn and --external-id. -/
structure App where
  profile : Option String
  source_profile : Option String
  role_arn : Option String
  external_id : Option String
deriving DecidableEq

/-- Arguments of the sts assume-role subcommand (struct AssumeRoleArgs). -/
structure AssumeRoleArgs where
  role_arn : String
  external_id : Option String
  mfa : Option (String × String)
deriving DecidableEq

/-- Arguments of the sts get-session-token subcommand
(struct GetSessionTokenArgs). -/
structure GetSessionTokenArgs where
  mfa : Option (String × String)
deriving DecidableEq

/-- The selected sts subcommand (enum AwsSubcommand). -/
inductive AwsSubcommand where
  | AssumeRole (args : AssumeRoleArgs)
  | GetSessionToken (args : GetSessionTokenArgs)
deriving DecidableEq

/-- The full AWS CLI invocation arguments (struct AwsArgs). -/
structure AwsArgs where
  source_profile : Option String
  subcommand : AwsSubcommand
deriving DecidableEq

/-- The serial/code pair carried by either subcommand, for stating properties
uniformly over both operations. -/
def AwsSubcommand.mfaField : AwsSubcommand → Option (String × String)
  | .AssumeRole a => a.mfa
  | .GetSessionToken a => a.mfa

/-- Models str::trim: removes leading and trailing whitespace from a string
(list-based so that it evaluates inside the kernel). -/
def rustTrim (s : String) : String :=
  String.mk (((s.data.dropWhile Char.isWhitespace).reverse.dropWhile
    Char.isWhitespace).reverse)

/-- Models the mfa closure of TryFrom for Properties (src/main.rs lines
132-140): when mfa_serial is declared, write one prompt, read one line of
standard input and pair the serial with the trimmed line. -/
def resolveMfa (properties : Properties) (console : Console) :
    Option (String × String) × Console :=
  match (properties.remove "mfa_serial").1 with
  | some mfa_serial =>
    let c1 := console.prompt
    let r := c1.readLine
    (some (mfa_serial, rustTrim r.1), r.2)
  | none => (none, console)

/-- Models TryFrom for ini Properties into AwsArgs (src/main.rs lines
126-153): extract source_profile and role_arn, resolve MFA, then select
assume-role (external id none) when role_arn is present, otherwise
get-session-token. -/
def tryFromProperties (properties : Properties) (console : Console) :
    AwsArgs × Console :=
  let r0 := properties.remove "source_profile"
  let source_profile := r0.1
  let p1 := r0.2
  let r1 := p1.remove "role_arn"
  let role_arn := r1.1
  let p2 := r1.2
  let r2 := resolveMfa p2 console
  let mfa := r2.1
  let c2 := r2.2
  match role_arn with
  | some arn =>
    ({ source_profile := source_profile,
       subcommand := .AssumeRole (AssumeRoleArgs.mk arn none mfa) }, c2)
  | none =>
    ({ source_profile := source_profile,
       subcommand := .GetSessionToken (GetSessionTokenArgs.mk mfa) }, c2)

/-- Error taxonomy of the program (enum AppError). CmdError records the argv
of the failed AWS CLI call; Generic carries a formatted message (this is the
variant produced when a profile is not found). -/
inductive AppError where
  | CmdError (args : List String)
  | Generic (msg : String)
  | IoErr
  | ProfileError (msg : String)
  | UnexpectedOutput (msg : String)
deriving DecidableEq

/-- Models TryFrom for App into AwsArgs (src/main.rs lines 102-124).
The loaded configuration and the Debug rendering of the config path are
passed explicitly. The outer Option models the unwrap on role_arn: none is
a panic, which the command-line constraints are meant to exclude. -/
def tryFromApp (app : App) (ini : Ini) (configPath : String) (console : Console) :
    Option (Except AppError (AwsArgs × Console)) :=
  match app.profile with
  | some name =>
    match ini.delete ("profile " ++ name) with
    | some profile => some (.ok (tryFromProperties profile console))
    | none =>
      some (.error (.Generic
        ("profile \"" ++ name ++ "\" not found in " ++ configPath)))
  | none =>
    match app.role_arn with
    | some arn =>
      some (.ok
        ({ source_profile := app.source_profile,
           subcommand := .AssumeRole (AssumeRoleArgs.mk arn app.external_id none) },
         console))
    | none => none

/-- Accumulator of CLI argument tokens (struct ArgsBuilder). -/
abbrev ArgsBuilder := List String

/-- Models ArgsBuilder::push. -/
def ArgsBuilder.push (args : ArgsBuilder) (arg : String) : ArgsBuilder :=
  args ++ [arg]

/-- Models ArgsBuilder::push_flag. -/
def ArgsBuilder.push_flag (args : ArgsBuilder) (flag value : String) : ArgsBuilder :=
  args ++ [flag, value]

/-- Models ArgsBuilder::push_flag_opt. -/
def ArgsBuilder.push_flag_opt (args : ArgsBuilder) (flag : String)
    (value : Option String) : ArgsBuilder :=
  match value with
  | some value => args.push_flag flag value
  | none => args

/-- Models ExtendArgs for AssumeRoleArgs (src/main.rs lines 207-218). -/
def AssumeRoleArgs.extend (self : AssumeRoleArgs) (args : ArgsBuilder) : ArgsBuilder :=
  let args := args.push "assume-role"
  let args := args.push_flag "--role-arn" self.role_arn
  let args := args.push_flag "--role-session-name" "blah"
  let args := args.push_flag_opt "--external_id" self.external_id
  match self.mfa with
  | some (mfa_serial, mfa_token) =>
    (args.push_flag "--serial-number" mfa_serial).push_flag "--token-code" mfa_token
  | none => args

/-- Models ExtendArgs for GetSessionTokenArgs (src/main.rs lines 220-228). -/
def GetSessionTokenArgs.extend (self : GetSessionTokenArgs) (args : ArgsBuilder) :
    ArgsBuilder :=
  let args := args.push "get-session-token"
  match self.mfa with
  | some (mfa_serial, mfa_token) =>
    (args.push_flag "--serial-number" mfa_serial).push_flag "--token-code" mfa_token
  | none => args

/-- Models ExtendArgs for AwsSubcommand (src/main.rs lines 198-205). -/
def AwsSubcommand.extend (self : AwsSubcommand) (args : ArgsBuilder) : ArgsBuilder :=
  match self with
  | .AssumeRole a => a.extend args
  | .GetSessionToken a => a.extend args

/-- Models ExtendArgs for AwsArgs (src/main.rs lines 190-196): optional
profile prefix, the sts literal, then the subcommand tokens. -/
def AwsArgs.extend (self : AwsArgs) (args : ArgsBuilder) : ArgsBuilder :=
  let args := args.push_flag_opt "--profile" self.source_profile
  let args := args.push "sts"
  self.subcommand.extend args

/-- Models IntoIterator for AwsArgs (src/main.rs lines 179-188): the full
token sequence handed to the external AWS CLI. -/
def AwsArgs.intoIter (self : AwsArgs) : List String :=
  self.extend []

/-- The credentials record deserialized from the tool's JSON output
(struct SessionCredentials, fields renamed to PascalCase by serde). -/
structure SessionCredentials where
  access_key_id : String
  secret_access_key : String
  session_token : String
deriving DecidableEq

/-- The top-level JSON response (struct CredentialsResponse). -/
structure CredentialsResponse where
  credentials : SessionCredentials
deriving DecidableEq

/-- Models Display for SessionCredentials (src/main.rs lines 244-254): three
export lines, values between single quotes, separated by newlines, no
trailing newline. -/
def SessionCredentials.display (c : SessionCredentials) : String :=
  "export AWS_ACCESS_KEY_ID=\x27" ++ c.access_key_id
    ++ "\x27\nexport AWS_SECRET_ACCESS_KEY=\x27" ++ c.secret_access_key
    ++ "\x27\nexport AWS_SESSION_TOKEN=\x27" ++ c.session_token ++ "\x27"

/-- JSON values, used to model serde_json deserialization of the external
tool's output (an external collaborator; the spec fixes the expected
response shape). -/
inductive Json where
  | null
  | bool (b : Bool)
  | num (raw : String)
  | str (s : String)
  | arr (elems : List Json)
  | obj (fields : List (String × Json))

/-- Skips JSON whitespace. -/
def skipWs : List Char → List Char
  | [] => []
  | c :: cs =>
    if c = ' ' ∨ c = '\t' ∨ c = '\n' ∨ c = '\r' then skipWs cs else c :: cs

/-- Value of one hexadecimal digit. -/
def hexVal (c : Char) : Option Nat :=
  if '0' ≤ c ∧ c ≤ '9' then some (c.toNat - '0'.toNat)
  else if 'a' ≤ c ∧ c ≤ 'f' then some (c.toNat - 'a'.toNat + 10)
  else if 'A' ≤ c ∧ c ≤ 'F' then some (c.toNat - 'A'.toNat + 10)
  else none

/-- Decodes a single-character JSON escape. -/
def escChar (e : Char) : Option Char :=
  if e = '"' then some '"'
  else if e = '\\' then some '\\'
  else if e = '/' then some '/'
  else if e = 'b' then some (Char.ofNat 8)
  else if e = 'f' then some (Char.ofNat 12)
  else if e = 'n' then some '\n'
  else if e = 'r' then some '\r'
  else if e = 't' then some '\t'
  else none

/-- Parses the remainder of a JSON string after the opening quote. -/
def parseStrRest : Nat → List Char → Option (String × List Char)
  | 0, _ => none
  | _, [] => none
  | fuel + 1, c :: rest =>
    if c = '"' then some ("", rest)
    else if c = '\\' then
      match rest with
      | [] => none
      | e :: rest2 =>
        if e = 'u' then
          match rest2 with
          | h1 :: h2 :: h3 :: h4 :: rest3 =>
            match hexVal h1, hexVal h2, hexVal h3, hexVal h4 with
            | some a, some b, some c2, some d =>
              (parseStrRest fuel rest3).map
                (fun r => (String.mk (Char.ofNat (a * 4096 + b * 256 + c2 * 16 + d) :: r.1.data), r.2))
            | _, _, _, _ => none
          | _ => none
        else
          match escChar e with
          | some ec =>
            (parseStrRest fuel rest2).map (fun r => (String.mk (ec :: r.1.data), r.2))
          | none => none
    else if c.toNat < 32 then none
    else (parseStrRest fuel rest).map (fun r => (String.mk (c :: r.1.data), r.2))

/-- Characters that may occur in a JSON number token. -/
def numChar (c : Char) : Bool :=
  c.isDigit || c == '-' || c == '+' || c == '.' || c == 'e' || c == 'E'

/-- Tokenizes a JSON number, keeping its raw text. -/
def parseNum (cs : List Char) : Option (Json × List Char) :=
  let raw := cs.takeWhile numChar
  if raw = [] then none else some (.num (String.mk raw), cs.dropWhile numChar)

mutual

/-- Parses one JSON value (fuelled recursive descent). -/
def parseValue : Nat → List Char → Option (Json × List Char)
  | 0, _ => none
  | fuel + 1, cs =>
    match skipWs cs with
    | [] => none
    | c :: rest =>
      if c = 'n' then
        match rest with
        | 'u' :: 'l' :: 'l' :: rest2 => some (.null, rest2)
        | _ => none
      else if c = 't' then
        match rest with
        | 'r' :: 'u' :: 'e' :: rest2 => some (.bool true, rest2)
        | _ => none
      else if c = 'f' then
        match rest with
        | 'a' :: 'l' :: 's' :: 'e' :: rest2 => some (.bool false, rest2)
        | _ => none
      else if c = '"' then
        (parseStrRest fuel rest).map (fun r => (.str r.1, r.2))
      else if c = '[' then
        match skipWs rest with
        | ']' :: rest2 => some (.arr [], rest2)
        | _ => (parseArrayItems fuel rest).map (fun r => (.arr r.1, r.2))
      else if c = '\x7b' then
        match skipWs rest with
        | '\x7d' :: rest2 => some (.obj [], rest2)
        | _ => (parseObjItems fuel rest).map (fun r => (.obj r.1, r.2))
      else if c = '-' ∨ c.isDigit then
        parseNum (c :: rest)
      else none

/-- Parses the comma-separated items of a non-empty JSON array. -/
def parseArrayItems : Nat → List Char → Option (List Json × List Char)
  | 0, _ => none
  | fuel + 1, cs =>
    match parseValue fuel cs with
    | none => none
    | some (v, rest) =>
      match skipWs rest with
      | ',' :: rest2 => (parseArrayItems fuel rest2).map (fun r => (v :: r.1, r.2))
      | ']' :: rest2 => some ([v], rest2)
      | _ => none

/-- Parses the comma-separated members of a non-empty JSON object. -/
def parseObjItems : Nat → List Char → Option (List (String × Json) × List Char)
  | 0, _ => none
  | fuel + 1, cs =>
    match skipWs cs with
    | '"' :: rest =>
      match parseStrRest fuel rest with
      | none => none
      | some (k, rest2) =>
        match skipWs rest2 with
        | ':' :: rest3 =>
          match parseValue fuel rest3 with
          | none => none
          | some (v, rest4) =>
            match skipWs rest4 with
            | ',' :: rest5 => (parseObjItems fuel rest5).map (fun r => ((k, v) :: r.1, r.2))
            | '\x7d' :: rest5 => some ([(k, v)], rest5)
            | _ => none
        | _ => none
    | _ => none

end

/-- Parses a complete JSON document with nothing but whitespace after it. -/
def parseJson (s : String) : Option Json :=
  match parseValue (s.length + 1) s.data with
  | some (j, rest) => if skipWs rest = [] then some j else none
  | none => none

/-- Looks a field up in a JSON object. -/
def Json.getField : Json → String → Option Json
  | .obj kvs, k => kvs.lookup k
  | _, _ => none

/-- Extracts a JSON string. -/
def Json.getStr : Json → Option String
  | .str s => some s
  | _ => none

/-- Models serde_json::from_slice deserializing a CredentialsResponse
(an external collaborator; the spec fixes the response shape: a Credentials
object with string fields AccessKeyId, SecretAccessKey, SessionToken). -/
def parseCredentialsResponse (s : String) : Except String CredentialsResponse :=
  match parseJson s with
  | none => .error "malformed JSON"
  | some j =>
    match j.getField "Credentials" with
    | none => .error "missing or invalid field Credentials"
    | some c =>
      match (c.getField "AccessKeyId").bind Json.getStr,
            (c.getField "SecretAccessKey").bind Json.getStr,
            (c.getField "SessionToken").bind Json.getStr with
      | some ak, some sk, some st =>
        .ok (CredentialsResponse.mk (SessionCredentials.mk ak sk st))
      | _, _, _ => .error "missing or invalid credentials field"

/-- Result of running the external AWS CLI: exit status and captured
standard output. -/
structure ToolResult where
  success : Bool
  stdout : String
deriving DecidableEq

deriving instance DecidableEq for Except

/-- Outcome of one run of _main: the final result (ok carries the line
printed to standard output; error means nothing was printed there), the argv
the external tool was invoked with (none when it was never spawned), and the
final console state. -/
structure MainOutcome where
  result : Except AppError String
  invoked : Option (List String)
  console : Console
deriving DecidableEq

/-- Models _main (src/main.rs lines 47-64): build the request, invoke the
external tool, check its exit status, parse its stdout and print the
rendered credentials. The outer Option models the role_arn unwrap panic. -/
def runMain (app : App) (ini : Ini) (configPath : String) (console : Console)
    (tool : List String → ToolResult) : Option MainOutcome :=
  match tryFromApp app ini configPath console with
  | none => none
  | some (.error e) => some (MainOutcome.mk (.error e) none console)
  | some (.ok (args, c1)) =>
    let argv := args.intoIter
    let output := tool argv
    if output.success = false then
      some (MainOutcome.mk (.error (.CmdError argv)) (some argv) c1)
    else
      match parseCredentialsResponse output.stdout with
      | .error e => some (MainOutcome.mk (.error (.UnexpectedOutput e)) (some argv) c1)
      | .ok response =>
        some (MainOutcome.mk (.ok response.credentials.display) (some argv) c1)

/-! Helper lemmas about profile resolution. -/

theorem lookup_filter_of_ne (l : List (String × String)) (k k' : String) (h : k ≠ k') :
    (l.filter (fun e => e.1 != k')).lookup k = l.lookup k := by
  induction l with
  | nil => rfl
  | cons a l ih =>
    rcases a with ⟨ka, va⟩
    by_cases hk : ka = k'
    · subst hk
      have h1 : (ka != ka) = false := by simp
      have h2 : (k == ka) = false := beq_eq_false_iff_ne.mpr h
      simp [List.filter, List.lookup, h1, h2, ih]
    · have h1 : (ka != k') = true := bne_iff_ne.mpr hk
      by_cases hka : k = ka
      · subst hka
        simp [List.filter, List.lookup, h1]
      · have h2 : (k == ka) = false := beq_eq_false_iff_ne.mpr hka
        simp [List.filter, List.lookup, h1, h2, ih]

theorem resolveMfa_congr (p q : Properties) (console : Console)
    (h : p.lookup "mfa_serial" = q.lookup "mfa_serial") :
    resolveMfa p console = resolveMfa q console := by
  unfold resolveMfa
  simp only [Properties.remove]
  rw [h]

theorem readLine_prompts (c : Console) : (c.readLine).2.prompts = c.prompts := by
  rcases c with ⟨stdin, prompts⟩
  cases stdin <;> rfl

theorem resolveMfa_some (p : Properties) (console : Console) (serial : String)
    (h : p.lookup "mfa_serial" = some serial) :
    resolveMfa p console =
      (some (serial, rustTrim ((console.prompt).readLine).1), ((console.prompt).readLine).2) := by
  unfold resolveMfa
  simp only [Properties.remove]
  rw [h]

theorem resolveMfa_none (p : Properties) (console : Console)
    (h : p.lookup "mfa_serial" = none) :
    resolveMfa p console = (none, console) := by
  unfold resolveMfa
  simp only [Properties.remove]
  rw [h]

theorem resolveMfa_after_removes (props : Properties) (console : Console) :
    resolveMfa ((props.remove "source_profile").2.remove "role_arn").2 console
      = resolveMfa props console := by
  apply resolveMfa_congr
  simp only [Properties.remove]
  rw [lookup_filter_of_ne _ _ _ (by decide), lookup_filter_of_ne _ _ _ (by decide)]

theorem tryFromProperties_some_arn (props : Properties) (console : Console) (arn : String)
    (h : props.lookup "role_arn" = some arn) :
    tryFromProperties props console =
      ({ source_profile := props.lookup "source_profile",
         subcommand := .AssumeRole ⟨arn, none, (resolveMfa props console).1⟩ },
       (resolveMfa props console).2) := by
  have e1 : ((props.remove "source_profile").2.remove "role_arn").1 = some arn := by
    simp only [Properties.remove]
    rw [lookup_filter_of_ne _ _ _ (by decide), h]
  have e2 := resolveMfa_after_removes props console
  simp only [tryFromProperties]
  rw [e1, e2]
  rfl

theorem tryFromProperties_no_arn (props : Properties) (console : Console)
    (h : props.lookup "role_arn" = none) :
    tryFromProperties props console =
      ({ source_profile := props.lookup "source_profile",
         subcommand := .GetSessionToken ⟨(resolveMfa props console).1⟩ },
       (resolveMfa props console).2) := by
  have e1 : ((props.remove "source_profile").2.remove "role_arn").1 = none := by
    simp only [Properties.remove]
    rw [lookup_filter_of_ne _ _ _ (by decide), h]
  have e2 := resolveMfa_after_removes props console
  simp only [tryFromProperties]
  rw [e1, e2]
  rfl

/-- Trailing-whitespace-only trimming. Modelled from the spec wording
"read one line from standard input, trim trailing whitespace", to compare
with what the code actually does (str::trim, which trims both ends). -/
def specTrimTrailing (s : String) : String :=
  String.mk ((s.data.reverse.dropWhile Char.isWhitespace).reverse)

/-- C1: operation selection when resolving via a profile: a present
(non-empty) role_arn key yields AssumeRole with that arn, no external id and
the resolved MFA; an absent role_arn yields GetSessionToken; a profile with
role_arn and no mfa_serial yields AssumeRole with no MFA; a profile with
neither key yields GetSessionToken with no MFA. -/
theorem c1_operation_selection (props : Properties) (console : Console) :
    (∀ arn, props.lookup "role_arn" = some arn → arn ≠ "" →
      (tryFromProperties props console).1.subcommand
        = .AssumeRole ⟨arn, none, (resolveMfa props console).1⟩)
    ∧ (props.lookup "role_arn" = none →
      (tryFromProperties props console).1.subcommand
        = .GetSessionToken ⟨(resolveMfa props console).1⟩)
    ∧ (∀ arn, props.lookup "role_arn" = some arn → props.lookup "mfa_serial" = none →
      (tryFromProperties props console).1.subcommand = .AssumeRole ⟨arn, none, none⟩)
    ∧ (props.lookup "role_arn" = none → props.lookup "mfa_serial" = none →
      (tryFromProperties props console).1.subcommand = .GetSessionToken ⟨none⟩) := by
  refine ⟨?_, ?_, ?_, ?_⟩
  · intro arn h _
    rw [tryFromProperties_some_arn props console arn h]
  · intro h
    rw [tryFromProperties_no_arn props console h]
  · intro arn h hm
    rw [tryFromProperties_some_arn props console arn h, resolveMfa_none props console hm]
  · intro h hm
    rw [tryFromProperties_no_arn props console h, resolveMfa_none props console hm]

/-- Witness for C1 at a profile defining only role_arn. -/
theorem c1_witness :
    (tryFromProperties [("role_arn", "r")] (Console.mk [] 0)).1.subcommand
      = .AssumeRole ⟨"r", none, none⟩ :=
  (c1_operation_selection [("role_arn", "r")] (Console.mk [] 0)).2.2.1 "r" rfl rfl

/-- C2 counterexample: with mfa_serial declared and stdin line " 123".append
newline, the code pairs the serial with "123" (str::trim removes LEADING
whitespace too), which differs from the line with only trailing whitespace
trimmed (" 123"). -/
theorem c2_counterexample :
    (tryFromProperties [("mfa_serial", "S")]
        (Console.mk [" 123\n"] 0)).1.subcommand.mfaField
      = some ("S", "123")
    ∧ some ("S", "123")
      ≠ some ("S", specTrimTrailing (((Console.mk [" 123\n"] 0).readLine).1)) := by
  constructor
  · decide
  · decide

/-- C2 (amended): a profile declaring mfa_serial triggers exactly one
interactive prompt regardless of the selected operation, and pairs the
declared serial with the stdin line trimmed of leading and trailing
whitespace; without mfa_serial there is no prompt and the MFA field is none. -/
theorem c2_mfa_resolution (props : Properties) (console : Console) :
    (∀ serial, props.lookup "mfa_serial" = some serial →
      (tryFromProperties props console).1.subcommand.mfaField
          = some (serial, rustTrim ((console.readLine).1))
        ∧ (tryFromProperties props console).2.prompts = console.prompts + 1)
    ∧ (props.lookup "mfa_serial" = none →
      (tryFromProperties props console).1.subcommand.mfaField = none
        ∧ (tryFromProperties props console).2 = console) := by
  constructor
  · intro serial h
    have hline : ((console.prompt).readLine).1 = (console.readLine).1 := by
      rcases console with ⟨stdin, prompts⟩
      cases stdin <;> rfl
    have hprom : ((console.prompt).readLine).2.prompts = console.prompts + 1 := by
      rw [readLine_prompts]
      rfl
    cases harn : props.lookup "role_arn" with
    | some arn =>
      rw [tryFromProperties_some_arn props console arn harn,
          resolveMfa_some props console serial h]
      refine ⟨?_, hprom⟩
      show some (serial, rustTrim ((console.prompt).readLine).1) = _
      rw [hline]
    | none =>
      rw [tryFromProperties_no_arn props console harn,
          resolveMfa_some props console serial h]
      refine ⟨?_, hprom⟩
      show some (serial, rustTrim ((console.prompt).readLine).1) = _
      rw [hline]
  · intro h
    have hm := resolveMfa_none props console h
    cases harn : props.lookup "role_arn" with
    | some arn =>
      rw [tryFromProperties_some_arn props console arn harn, hm]
      exact ⟨rfl, rfl⟩
    | none =>
      rw [tryFromProperties_no_arn props console harn, hm]
      exact ⟨rfl, rfl⟩

/-- Witness for the amended C2 at a concrete profile and stdin line. -/
theorem c2_witness :
    (tryFromProperties [("mfa_serial", "S")]
        (Console.mk ["42\n"] 0)).1.subcommand.mfaField
      = some ("S", rustTrim (((Console.mk ["42\n"] 0).readLine).1))
    ∧ (tryFromProperties [("mfa_serial", "S")] (Console.mk ["42\n"] 0)).2.prompts
      = 0 + 1 :=
  (c2_mfa_resolution [("mfa_serial", "S")] (Console.mk ["42\n"] 0)).1 "S" rfl

/-- C8: the argument list is a pure function of the request: requests with
identical source_profile and operation fields build identical token
sequences. -/
theorem c8_builder_deterministic (a b : AwsArgs)
    (h1 : a.source_profile = b.source_profile) (h2 : a.subcommand = b.subcommand) :
    a.intoIter = b.intoIter := by
  cases a
  cases b
  cases h1
  cases h2
  rfl

/-- Witness for C8 at a concrete request. -/
theorem c8_witness :
    (AwsArgs.mk (some "p") (.GetSessionToken ⟨none⟩)).intoIter
      = (AwsArgs.mk (some "p") (.GetSessionToken ⟨none⟩)).intoIter :=
  c8_builder_deterministic _ _ rfl rfl

/-- C9: under the required_unless command-line constraint (a role ARN is
present whenever no profile name is given), the conversion from parsed CLI
arguments never hits the role_arn unwrap panic. -/
theorem c9_no_unwrap_panic (app : App) (ini : Ini) (configPath : String)
    (console : Console) (h : app.profile = none → app.role_arn.isSome = true) :
    (tryFromApp app ini configPath console).isSome = true := by
  cases hp : app.profile with
  | some name =>
    cases hd : Ini.delete ini ("profile " ++ name) with
    | some profile => simp [tryFromApp, hp, hd]
    | none => simp [tryFromApp, hp, hd]
  | none =>
    cases hr : app.role_arn with
    | some arn => simp [tryFromApp, hp, hr]
    | none =>
      have hcontra := h hp
      rw [hr] at hcontra
      exact absurd hcontra (by decide)

/-- Witness for C9 at a concrete explicit-parameter invocation. -/
theorem c9_witness :
    (tryFromApp (App.mk none none (some "r") none) [] "" (Console.mk [] 0)).isSome
      = true :=
  c9_no_unwrap_panic _ _ _ _ (fun _ => rfl)

/-- Appending nature of the builder: a subcommand extends any accumulator by
the tokens it produces on an empty accumulator. -/
theorem extend_append (sub : AwsSubcommand) (args : ArgsBuilder) :
    sub.extend args = args ++ sub.extend [] := by
  cases sub with
  | AssumeRole a =>
    rcases a with ⟨arn, eid, mfa⟩
    cases eid <;> rcases mfa with _ | ⟨s, t⟩ <;>
      simp [AwsSubcommand.extend, AssumeRoleArgs.extend, ArgsBuilder.push,
        ArgsBuilder.push_flag, ArgsBuilder.push_flag_opt]
  | GetSessionToken a =>
    rcases a with ⟨mfa⟩
    rcases mfa with _ | ⟨s, t⟩ <;>
      simp [AwsSubcommand.extend, GetSessionTokenArgs.extend, ArgsBuilder.push,
        ArgsBuilder.push_flag, ArgsBuilder.push_flag_opt]

/-- C3: AssumeRole argument serialization: after the optional profile prefix,
the tokens following the sts literal are exactly assume-role,
--role-arn <arn>, --role-session-name blah, then --external_id <id> iff
present, then --serial-number <serial> --token-code <code> iff MFA is
present; in particular the explicit-parameter invocation with role_arn arn:x
and external_id eid yields the stated tail with no MFA flags. -/
theorem c3_assume_role_serialization :
    (∀ (sp : Option String) (a : AssumeRoleArgs),
      (AwsArgs.mk sp (.AssumeRole a)).intoIter
        = (match sp with | some p => ["--profile", p] | none => [])
          ++ ["sts", "assume-role", "--role-arn", a.role_arn,
              "--role-session-name", "blah"]
          ++ (match a.external_id with | some e => ["--external_id", e] | none => [])
          ++ (match a.mfa with
              | some st => ["--serial-number", st.1, "--token-code", st.2]
              | none => []))
    ∧ tryFromApp (App.mk none none (some "arn:x") (some "eid")) [] "" (Console.mk [] 0)
        = some (.ok (AwsArgs.mk none
            (.AssumeRole (AssumeRoleArgs.mk "arn:x" (some "eid") none)),
          Console.mk [] 0))
    ∧ (AwsArgs.mk none
        (.AssumeRole (AssumeRoleArgs.mk "arn:x" (some "eid") none))).intoIter
        = ["sts", "assume-role", "--role-arn", "arn:x", "--role-session-name",
           "blah", "--external_id", "eid"] := by
  refine ⟨?_, rfl, rfl⟩
  intro sp a
  rcases a with ⟨arn, eid, mfa⟩
  cases sp <;> cases eid <;> rcases mfa with _ | ⟨s, t⟩ <;>
    simp [AwsArgs.intoIter, AwsArgs.extend, AwsSubcommand.extend,
      AssumeRoleArgs.extend, ArgsBuilder.push, ArgsBuilder.push_flag,
      ArgsBuilder.push_flag_opt]

/-- C4 counterexample: the conjunct that the sequence of a GetSessionToken
request never contains the token --role-arn fails when a field value is
itself that literal: with source_profile set to --role-arn the sequence
contains it. -/
theorem c4_counterexample :
    "--role-arn" ∈ (AwsArgs.mk (some "--role-arn")
      (.GetSessionToken (GetSessionTokenArgs.mk none))).intoIter := by
  decide

/-- C4 (amended): with source_profile present the sequence begins with
--profile and its value followed by sts, otherwise directly with sts; for
GetSessionToken the tokens after sts are exactly get-session-token plus the
two MFA flags iff MFA is present; and the sequence contains --role-arn only
if one of the field values is itself that literal string. -/
theorem c4_prefix_and_get_session_token (sp : Option String)
    (mfa : Option (String × String)) :
    ((AwsArgs.mk sp (.GetSessionToken (GetSessionTokenArgs.mk mfa))).intoIter
      = (match sp with | some p => ["--profile", p] | none => [])
        ++ ["sts", "get-session-token"]
        ++ (match mfa with
            | some st => ["--serial-number", st.1, "--token-code", st.2]
            | none => []))
    ∧ (∀ (p : String) (sub : AwsSubcommand), ∃ rest,
        (AwsArgs.mk (some p) sub).intoIter = "--profile" :: p :: "sts" :: rest)
    ∧ (∀ sub : AwsSubcommand, ∃ rest,
        (AwsArgs.mk none sub).intoIter = "sts" :: rest)
    ∧ (sp ≠ some "--role-arn" →
        (∀ s t, mfa = some (s, t) → s ≠ "--role-arn" ∧ t ≠ "--role-arn") →
        "--role-arn" ∉ (AwsArgs.mk sp
          (.GetSessionToken (GetSessionTokenArgs.mk mfa))).intoIter) := by
  refine ⟨?_, ?_, ?_, ?_⟩
  · cases sp <;> rcases mfa with _ | ⟨s, t⟩ <;>
      simp [AwsArgs.intoIter, AwsArgs.extend, AwsSubcommand.extend,
        GetSessionTokenArgs.extend, ArgsBuilder.push, ArgsBuilder.push_flag,
        ArgsBuilder.push_flag_opt]
  · intro p sub
    refine ⟨sub.extend [], ?_⟩
    show AwsSubcommand.extend sub ["--profile", p, "sts"] = _
    rw [extend_append]
    rfl
  · intro sub
    refine ⟨sub.extend [], ?_⟩
    show AwsSubcommand.extend sub ["sts"] = _
    rw [extend_append]
    rfl
  · intro h1 h2
    cases sp with
    | none =>
      cases mfa with
      | none => decide
      | some st =>
        rcases st with ⟨s, t⟩
        have hs := h2 s t rfl
        intro hmem
        simp [AwsArgs.intoIter, AwsArgs.extend, AwsSubcommand.extend,
          GetSessionTokenArgs.extend, ArgsBuilder.push, ArgsBuilder.push_flag,
          ArgsBuilder.push_flag_opt] at hmem
        rcases hmem with h | h
        · exact hs.1 h.symm
        · exact hs.2 h.symm
    | some p =>
      have hp : p ≠ "--role-arn" := fun he => h1 (by rw [he])
      cases mfa with
      | none =>
        intro hmem
        simp [AwsArgs.intoIter, AwsArgs.extend, AwsSubcommand.extend,
          GetSessionTokenArgs.extend, ArgsBuilder.push, ArgsBuilder.push_flag,
          ArgsBuilder.push_flag_opt] at hmem
        exact hp hmem.symm
      | some st =>
        rcases st with ⟨s, t⟩
        have hs := h2 s t rfl
        intro hmem
        simp [AwsArgs.intoIter, AwsArgs.extend, AwsSubcommand.extend,
          GetSessionTokenArgs.extend, ArgsBuilder.push, ArgsBuilder.push_flag,
          ArgsBuilder.push_flag_opt] at hmem
        rcases hmem with h | h | h
        · exact hp h.symm
        · exact hs.1 h.symm
        · exact hs.2 h.symm

/-- Witness for the amended C4 at a concrete MFA-carrying request. -/
theorem c4_witness :
    "--role-arn" ∉ (AwsArgs.mk (some "prod")
      (.GetSessionToken (GetSessionTokenArgs.mk (some ("ser", "code"))))).intoIter :=
  (c4_prefix_and_get_session_token (some "prod") (some ("ser", "code"))).2.2.2
    (by decide) (fun s t h => by cases h; exact ⟨by decide, by decide⟩)

/-- C5: the synthetic tool response parses successfully and renders exactly
to the three export lines, in order, newline separated, values single
quoted, no trailing newline. -/
theorem c5_round_trip :
    parseCredentialsResponse
        "\x7b\x22Credentials\x22:\x7b\x22AccessKeyId\x22:\x22AK\x22,\x22SecretAccessKey\x22:\x22SK\x22,\x22SessionToken\x22:\x22ST\x22\x7d\x7d"
        = .ok (CredentialsResponse.mk (SessionCredentials.mk "AK" "SK" "ST"))
      ∧ (SessionCredentials.mk "AK" "SK" "ST").display
        = "export AWS_ACCESS_KEY_ID=\x27AK\x27\nexport AWS_SECRET_ACCESS_KEY=\x27SK\x27\nexport AWS_SESSION_TOKEN=\x27ST\x27" := by
  exact ⟨by decide, by decide⟩

/-- C6: resolving a profile name absent from the configuration store fails
with the not-found error naming the profile, and the external tool is never
invoked. -/
theorem c6_profile_not_found (name : String) (sp ra eid : Option String)
    (ini : Ini) (configPath : String) (console : Console)
    (tool : List String → ToolResult)
    (h : ini.lookup ("profile " ++ name) = none) :
    runMain (App.mk (some name) sp ra eid) ini configPath console tool
      = some (MainOutcome.mk
          (.error (.Generic
            ("profile \"" ++ name ++ "\" not found in " ++ configPath)))
          none console) := by
  simp [runMain, tryFromApp, Ini.delete, h]

/-- Witness for C6 at a concrete absent profile. -/
theorem c6_witness :
    runMain (App.mk (some "x") none none none) [] "/home/u/.aws/config"
        (Console.mk [] 0) (fun _ => ToolResult.mk true "")
      = some (MainOutcome.mk
          (.error (.Generic
            ("profile \"" ++ "x" ++ "\" not found in " ++ "/home/u/.aws/config")))
          none (Console.mk [] 0)) :=
  c6_profile_not_found "x" none none none [] "/home/u/.aws/config"
    (Console.mk [] 0) (fun _ => ToolResult.mk true "") rfl

/-- C7: whenever the external tool's output fails to parse as the expected
credentials shape, the run ends in UnexpectedOutput and nothing is printed
to standard output (the outcome result is an error, and only an ok outcome
prints). -/
theorem c7_unexpected_output (app : App) (ini : Ini) (configPath : String)
    (console c1 : Console) (args : AwsArgs) (tool : List String → ToolResult)
    (e : String)
    (h1 : tryFromApp app ini configPath console = some (.ok (args, c1)))
    (h2 : (tool args.intoIter).success = true)
    (h3 : parseCredentialsResponse (tool args.intoIter).stdout = .error e) :
    runMain app ini configPath console tool
      = some (MainOutcome.mk (.error (.UnexpectedOutput e))
          (some args.intoIter) c1) := by
  simp [runMain, h1, h2, h3]

/-- Witness for C7 at a concrete run whose tool output is not JSON. -/
theorem c7_witness :
    runMain (App.mk none none (some "r") none) [] "" (Console.mk [] 0)
        (fun _ => ToolResult.mk true "x")
      = some (MainOutcome.mk (.error (.UnexpectedOutput "malformed JSON"))
          (some ((AwsArgs.mk none
            (.AssumeRole (AssumeRoleArgs.mk "r" none none))).intoIter))
          (Console.mk [] 0)) :=
  c7_unexpected_output _ _ _ _ _ _ _ _ rfl rfl (by decide)

/-- Checks that a line has the exact shape of a well-formed single-quoted
shell export assignment: the fixed prefix for the given variable name, a
closing single quote, and no single quote inside the quoted value. -/
def isWellFormedExportLine (name line : String) : Bool :=
  let pre := ("export " ++ name ++ "=\x27").data
  let rest := line.data.drop pre.length
  (line.data.take pre.length == pre) && !rest.isEmpty
    && (rest.getLast? == some '\x27')
    && rest.dropLast.all (fun ch => ch != '\x27')

/-- C10: rendering performs no escaping: every field value is inserted
verbatim between the surrounding single quotes of its export line, so a
value containing a single quote yields a first line that is not a
well-formed single-quoted shell string (while a quote-free value yields a
well-formed one). -/
theorem c10_no_escaping :
    (∀ c : SessionCredentials,
      SessionCredentials.display c
        = "export AWS_ACCESS_KEY_ID=\x27" ++ c.access_key_id
            ++ "\x27\nexport AWS_SECRET_ACCESS_KEY=\x27" ++ c.secret_access_key
            ++ "\x27\nexport AWS_SESSION_TOKEN=\x27" ++ c.session_token ++ "\x27")
    ∧ isWellFormedExportLine "AWS_ACCESS_KEY_ID"
        (String.mk (((SessionCredentials.mk "A\x27B" "SK" "ST").display).data.takeWhile
          (fun ch => ch != '\n'))) = false
    ∧ isWellFormedExportLine "AWS_ACCESS_KEY_ID"
        (String.mk (((SessionCredentials.mk "AK" "SK" "ST").display).data.takeWhile
          (fun ch => ch != '\n'))) = true := by
  exact ⟨fun c => rfl, by decide, by decide⟩
